import Mathlib

/-!
Verification development for the NeuroScan EEG analysis pipeline.

The JavaScript source is shallowly embedded: JS numbers are modelled as
exact rationals (or reals where the code uses trigonometric functions),
the mulberry32 PRNG state is a natural number below 2^32 with all bitwise
operations taken modulo 2^32, Math.round is modelled as fun x => Int.floor
(x + 1/2) (JS rounds halves toward positive infinity), and toFixed(d)
followed by parseFloat is modelled as exact decimal rounding (half up) to
d digits.  Fallible CSV parsing returns Except.  parseFloat is modelled on
sign / digits / decimal point / exponent inputs; the special value
Infinity is not modelled (it never arises in the claims considered).
-/

/-! ### Mulberry32 PRNG (src/src/utils/eegUtils.js, mulberry32) -/

/-- JS ToUint32 of an integer seed: the bit pattern of the 32-bit state. -/
def toUInt32 (z : ℤ) : ℕ := (z % 4294967296).toNat

/-- One step of the mulberry32 generator: given the current 32-bit state,
return the next state and the 32-bit output numerator.  The JS closure
advances the captured seed and returns output / 2^32. -/
def mulberry32Step (s : ℕ) : ℕ × ℕ :=
  let s1 := (s + 0x6d2b79f5) % 4294967296
  let a := s1 ^^^ (s1 >>> 15)
  let b := s1 ||| 1
  let t1 := (a * b) % 4294967296
  let c := t1 ^^^ (t1 >>> 7)
  let d := t1 ||| 61
  let t2 := ((t1 + (c * d) % 4294967296) % 4294967296) ^^^ t1
  (s1, t2 ^^^ (t2 >>> 14))

/-- The state after one draw. -/
def mbNext (st : ℕ) : ℕ := (mulberry32Step st).1

/-- The 32-bit output numerator of one draw. -/
def mbOut (st : ℕ) : ℕ := (mulberry32Step st).2

variable {α : Type} [LinearOrderedField α]

/-- The value in [0,1) produced by one draw, as an exact field element. -/
def mbDraw (st : ℕ) : α := ((mbOut st : α)) / 4294967296

/-! ### JS numeric rounding -/

variable [FloorRing α]

/-- Math.round: nearest integer, halves toward positive infinity. -/
def jsRound (x : α) : ℤ := ⌊x + 1 / 2⌋

/-- parseFloat(x.toFixed(d)): decimal rounding to d digits, half up. -/
def roundTo (d : ℕ) (x : α) : α := ((jsRound (x * (10 : α) ^ d) : α)) / (10 : α) ^ d

/-! ### Band powers and risk scoring (src/src/utils/eegUtils.js) -/

/-- The five-band power record produced by both estimators. -/
structure BandPowers (α : Type) where
  delta : α
  theta : α
  alpha : α
  beta : α
  gamma : α
  deriving Repr, DecidableEq

/-- Result record of computeRiskScore. -/
structure RiskResult (α : Type) where
  score : ℤ
  confidence : ℤ
  keyMarker : String
  keyDeviation : String
  components : List (String × α)

/-- Fixed band-to-phrase table for the key marker. -/
def markerMap : String → String
  | "delta" => "δ Elevation"
  | "theta" => "θ Elevation"
  | "alpha" => "α Suppression"
  | _ => "γ Dysregulation"

/-- Deviation display string for the key band. -/
def deviationText (band : String) (bp : BandPowers α) : String :=
  match band with
  | "delta" => "+" ++ toString (jsRound ((bp.delta / 1.2 - 1) * 100)) ++ "% above normal"
  | "theta" => "+" ++ toString (jsRound ((bp.theta / 0.7 - 1) * 100)) ++ "% above normal"
  | "alpha" => "-" ++ toString (jsRound ((1 - bp.alpha / 1.8) * 100)) ++ "% below normal"
  | _ => "+" ++ toString (jsRound ((bp.gamma / 0.2 - 1) * 100)) ++ "% above normal"

/-- computeRiskScore from src/src/utils/eegUtils.js lines 138-179.
Each component is rounded to 2 decimals (toFixed(2)), the score is the
clamped rounded 1.2-scaled sum, the confidence is Math.round(80 + r*15)
for the first draw of mulberry32(seed + 2000), and the key band is the
left-to-right strict-greater reduction over the components. -/
def computeRiskScore (bp : BandPowers α) (seed : ℤ) : RiskResult α :=
  let st := toUInt32 (seed + 2000)
  let cDelta := roundTo 2 ((bp.delta / 1.2 - 1) * 20)
  let cTheta := roundTo 2 ((bp.theta / 0.7 - 1) * 15)
  let cAlpha := roundTo 2 ((1 - bp.alpha / 1.8) * 35)
  let cGamma := roundTo 2 ((bp.gamma / 0.2 - 1) * 10)
  let rawScore := cDelta + cTheta + cAlpha + cGamma
  let score := min 100 (max 0 (jsRound (rawScore * 1.2)))
  let confidence := jsRound ((80 : α) + mbDraw st * 15)
  let keyBand :=
    (List.foldl (fun a b => if b.2 > a.2 then b else a) ("delta", cDelta)
      [("theta", cTheta), ("alpha", cAlpha), ("gamma", cGamma)]).1
  { score := score
    confidence := confidence
    keyMarker := markerMap keyBand
    keyDeviation := deviationText keyBand bp
    components :=
      [("delta", cDelta), ("theta", cTheta), ("alpha", cAlpha), ("gamma", cGamma)] }

/-- Classification record produced by classifyRisk. -/
structure Classification where
  level : String
  color : String
  recommendation : String
  alert : String
  deriving Repr, DecidableEq

/-- classifyRisk from src/src/utils/eegUtils.js lines 256-279. -/
def classifyRisk (score : ℤ) : Classification :=
  if score ≥ 60 then
    { level := "High Risk"
      color := "#ef4444"
      recommendation := "Immediate psychiatric consultation recommended"
      alert := "Elevated slow-wave activity and reduced alpha coherence patterns observed. Recommend psychiatric evaluation." }
  else if score ≥ 40 then
    { level := "Moderate"
      color := "#f59e0b"
      recommendation := "Schedule follow-up evaluation"
      alert := "Borderline EEG patterns detected. Some abnormalities present. Monitor and retest in 3 months." }
  else
    { level := "Low Risk"
      color := "#10b981"
      recommendation := "Routine monitoring"
      alert := "EEG patterns within healthy reference range. No significant abnormalities detected." }

/-! ### SHAP-style attribution (src/src/utils/eegUtils.js, generateSHAPValues,
and src/unnamed/part_001, generateSHAPFromBandPowers) -/

/-- One attribution entry. -/
structure ShapEntry (α : Type) where
  name : String
  band : String
  region : String
  value : α
  deriving Repr, DecidableEq

/-- The fixed 15-feature table (name, band, region) shared by both modes. -/
def features : List (String × String × String) :=
  [("α · Fz", "alpha", "Frontal"),
   ("δ · Cz", "delta", "Central"),
   ("θ · F3", "theta", "Frontal"),
   ("γ · Fp1", "gamma", "Prefrontal"),
   ("α · C3", "alpha", "Central"),
   ("Coh · Fz→Pz", "coh", "F-P"),
   ("δ · F4", "delta", "Frontal"),
   ("θ · Pz", "theta", "Parietal"),
   ("α · O1", "alpha", "Occipital"),
   ("β · C4", "beta", "Central"),
   ("γ · F3", "gamma", "Frontal"),
   ("Coh · F3→P3", "coh", "F-P"),
   ("δ · Fp1", "delta", "Prefrontal"),
   ("θ · C3", "theta", "Central"),
   ("α · Fp2", "alpha", "Prefrontal")]

/-- Map over a list threading a PRNG state, returning the final state. -/
def mapRng {β γ : Type} (f : β → ℕ → γ × ℕ) : List β → ℕ → List γ × ℕ
  | [], st => ([], st)
  | x :: xs, st =>
    let p := f x st
    let q := mapRng f xs p.2
    (p.1 :: q.1, q.2)

/-- Per-band sign under the schizophrenia profile. -/
def szSign : String → ℚ
  | "alpha" => -1
  | "delta" => 1
  | "theta" => 1
  | "gamma" => 1
  | "beta" => -1
  | _ => -1

/-- Per-band sign under the healthy profile. -/
def hSign : String → ℚ
  | "alpha" => 1
  | "delta" => -1
  | "theta" => -1
  | "gamma" => -1
  | "beta" => 1
  | _ => 1

/-- Per-band magnitude range under the schizophrenia profile. -/
def szMag : String → ℚ × ℚ
  | "alpha" => (0.15, 0.35)
  | "delta" => (0.10, 0.28)
  | "theta" => (0.08, 0.20)
  | "gamma" => (0.08, 0.22)
  | "beta" => (0.05, 0.15)
  | _ => (0.08, 0.18)

/-- Per-band magnitude range under the healthy profile. -/
def hMag : String → ℚ × ℚ
  | "alpha" => (0.05, 0.15)
  | "delta" => (0.03, 0.10)
  | "theta" => (0.03, 0.08)
  | "gamma" => (0.03, 0.08)
  | "beta" => (0.02, 0.08)
  | _ => (0.03, 0.10)

/-- Sort attribution entries descending by absolute value, as the JS
Array.sort comparator |b.value| - |a.value| does. -/
def sortByAbsDesc [LinearOrderedField α] (l : List (ShapEntry α)) : List (ShapEntry α) :=
  l.mergeSort (fun a b => decide (|b.value| ≤ |a.value|))

/-- generateSHAPValues from src/src/utils/eegUtils.js lines 187-228
(simulated mode, two draws per feature from mulberry32(seed + 3000)). -/
def generateSHAPValues (isSZ : Bool) (seed : ℤ) : List (ShapEntry ℚ) :=
  let st := toUInt32 (seed + 3000)
  let res := mapRng (fun f st0 =>
      let mag := if isSZ then szMag f.2.1 else hMag f.2.1
      let sign := if isSZ then szSign f.2.1 else hSign f.2.1
      let base := mag.1 + mbDraw st0 * (mag.2 - mag.1)
      let st1 := mbNext st0
      let noise := (mbDraw st1 - 0.5) * 0.03
      let st2 := mbNext st1
      (ShapEntry.mk f.1 f.2.1 f.2.2 (roundTo 4 (sign * (base + noise))), st2))
    features st
  sortByAbsDesc res.1

/-- Power of the named band in a BandPowers record; the source indexes the
record by the feature band name. -/
def bandValue (band : String) (bp : BandPowers α) : α :=
  match band with
  | "delta" => bp.delta
  | "theta" => bp.theta
  | "alpha" => bp.alpha
  | "beta" => bp.beta
  | _ => bp.gamma

/-- Literature baseline of the named band. -/
def baselineOf (band : String) : α :=
  match band with
  | "delta" => 1.2
  | "theta" => 0.7
  | "alpha" => 1.8
  | "beta" => 0.5
  | _ => 0.2

/-- The seed derived from band powers in the CSV pipeline:
Math.round((bandPowers.alpha or 1 when alpha is 0) * 10000). -/
def alphaSeed (bp : BandPowers α) : ℤ :=
  jsRound ((if bp.alpha = 0 then 1 else bp.alpha) * 10000)

/-- generateSHAPFromBandPowers from src/unnamed/part_001 lines 185-237
(measured mode, one draw per feature from a PRNG seeded by alphaSeed). -/
def generateSHAPFromBandPowers (bp : BandPowers α) : List (ShapEntry α) :=
  let st := toUInt32 (alphaSeed bp)
  let res := mapRng (fun f st0 =>
      let value :=
        if f.2.1 = "coh" then
          let alphaRatio := (if bp.alpha = 0 then 1 else bp.alpha) / (1.8 : α)
          roundTo 4 ((1 - alphaRatio) * 0.15 + (mbDraw st0 - 0.5) * 0.03)
        else
          let actual := bandValue f.2.1 bp
          let baseline := baselineOf f.2.1
          let deviation := (actual - baseline) / baseline
          if f.2.1 = "alpha" then
            roundTo 4 (-deviation * 0.3 + (mbDraw st0 - 0.5) * 0.02)
          else
            roundTo 4 (deviation * 0.2 + (mbDraw st0 - 0.5) * 0.02)
      (ShapEntry.mk f.1 f.2.1 f.2.2 value, mbNext st0))
    features st
  sortByAbsDesc res.1

/-! ### Coherence (src/src/utils/eegUtils.js, computeCoherence) -/

/-- computeCoherence from src/src/utils/eegUtils.js lines 235-250: two
draws per electrode pair from mulberry32(seed + 4000). -/
def computeCoherence (isSZ : Bool) (seed : ℤ) : List (String × α) :=
  let st := toUInt32 (seed + 4000)
  (mapRng (fun pair st0 =>
      let base : α := if isSZ then 0.25 + mbDraw st0 * 0.20 else 0.65 + mbDraw st0 * 0.15
      let st1 := mbNext st0
      ((pair, roundTo 3 (base + (mbDraw st1 - 0.5) * 0.05)), mbNext st1))
    ["Fz-Pz", "F3-P3", "F4-P4"] st).1

/-! ### CSV parsing (src/unnamed/part_001, parseCSV) -/

/-- One sample row of a signal. -/
structure Sample (α : Type) where
  time : α
  Fp1 : α
  F3 : α
  C3 : α
  P3 : α
  O1 : α
  deriving Repr, DecidableEq

/-- Accumulator form of character splitting: the accumulator holds the
current cell reversed. -/
def splitOnCharAux (sep : Char) : List Char → List Char → List (List Char)
  | [], acc => [acc.reverse]
  | c :: rest, acc =>
    if c = sep then acc.reverse :: splitOnCharAux sep rest []
    else splitOnCharAux sep rest (c :: acc)

/-- Split a character list at every occurrence of the separator, as the JS
String.split with a single-character separator does. -/
def splitOnChar (sep : Char) (l : List Char) : List (List Char) := splitOnCharAux sep l []

/-- JS String.trim on a character list. -/
def jsTrim (l : List Char) : List Char :=
  ((l.dropWhile Char.isWhitespace).reverse.dropWhile Char.isWhitespace).reverse

/-- JS String.toLowerCase on a character list (ASCII is what occurs here). -/
def jsToLower (l : List Char) : List Char := l.map Char.toLower

/-- Split text into lines at \n or \r\n, as the JS split on /\r?\n/ does. -/
def splitLines (l : List Char) : List (List Char) :=
  (splitOnChar '\n' l).map (fun s => if s.getLast? = some '\r' then s.dropLast else s)

/-- Leading decimal digits of a character list, and the rest. -/
def takeDigits : List Char → List ℕ × List Char
  | [] => ([], [])
  | c :: rest =>
    if c.isDigit then
      let p := takeDigits rest
      ((c.toNat - 48) :: p.1, p.2)
    else ([], c :: rest)

/-- Value of a digit list read in base 10. -/
def digitsVal (ds : List ℕ) : ℕ := ds.foldl (fun a d => 10 * a + d) 0

/-- Exponent part of a JS float literal: e or E, an optional sign and at
least one digit; anything else contributes exponent 0 (parseFloat ignores
an incomplete exponent suffix). -/
def parseExponent : List Char → ℤ
  | 'e' :: r => parseSignedDigits r
  | 'E' :: r => parseSignedDigits r
  | _ => 0
where
  parseSignedDigits : List Char → ℤ
  | '-' :: r2 => if (takeDigits r2).1 = [] then 0 else -(digitsVal (takeDigits r2).1 : ℤ)
  | '+' :: r2 => if (takeDigits r2).1 = [] then 0 else (digitsVal (takeDigits r2).1 : ℤ)
  | r2 => if (takeDigits r2).1 = [] then 0 else (digitsVal (takeDigits r2).1 : ℤ)

/-- JS parseFloat on a character list: longest numeric prefix, none when no
numeric prefix exists (NaN).  Handles sign, integer part, fraction part and
exponent; Infinity is not modelled. -/
def jsParseFloat (cs : List Char) : Option ℚ :=
  let cs0 := cs.dropWhile Char.isWhitespace
  let sp : ℚ × List Char :=
    match cs0 with
    | '-' :: r => (-1, r)
    | '+' :: r => (1, r)
    | r => (1, r)
  let ip := takeDigits sp.2
  let fp : List ℕ × List Char :=
    match ip.2 with
    | '.' :: r => takeDigits r
    | r => ([], r)
  if ip.1 = [] ∧ fp.1 = [] then none
  else
    let mantissa : ℚ := (digitsVal ip.1 : ℚ) + (digitsVal fp.1 : ℚ) / 10 ^ fp.1.length
    some (sp.1 * mantissa * (10 : ℚ) ^ parseExponent fp.2)

/-- The six required lowercase column names, in the order the source lists
them. -/
def requiredCols : List (List Char) :=
  ["time".toList, "fp1".toList, "f3".toList, "c3".toList, "p3".toList, "o1".toList]

/-- JS Array.indexOf: first index of the column in the header, -1 when
absent. -/
def jsIndexOf (hdr : List (List Char)) (col : List Char) : ℤ :=
  match hdr.findIdx? (· = col) with
  | some i => (i : ℤ)
  | none => -1

/-- JS array indexing with an integer index: out-of-range and negative
indices give undefined, whose parseFloat is NaN — modelled by the empty
cell, which jsParseFloat rejects. -/
def getCell (cells : List (List Char)) (i : ℤ) : List Char :=
  if 0 ≤ i then cells.getD i.toNat [] else []

/-- Parse one data row against the header (src/unnamed/part_001 lines
44-61): split on commas and trim; skip the row when it has fewer cells
than the header or when any of the six required cells is not numeric. -/
def parseRow (hdr : List (List Char)) (line : List Char) : Option (Sample ℚ) :=
  let cells := (splitOnChar ',' line).map jsTrim
  if cells.length < hdr.length then none
  else
    match jsParseFloat (getCell cells (jsIndexOf hdr "time".toList)),
        jsParseFloat (getCell cells (jsIndexOf hdr "fp1".toList)),
        jsParseFloat (getCell cells (jsIndexOf hdr "f3".toList)),
        jsParseFloat (getCell cells (jsIndexOf hdr "c3".toList)),
        jsParseFloat (getCell cells (jsIndexOf hdr "p3".toList)),
        jsParseFloat (getCell cells (jsIndexOf hdr "o1".toList)) with
    | some t, some v1, some v2, some v3, some v4, some v5 =>
        some (Sample.mk t v1 v2 v3 v4 v5)
    | _, _, _, _, _, _ => none

/-- Non-blank lines of the trimmed CSV text. -/
def csvLines (text : String) : List (List Char) :=
  (splitLines (jsTrim text.toList)).filter (fun l => jsTrim l ≠ [])

/-- Lowercased trimmed header cells of the first line. -/
def headerOf (ls : List (List Char)) : List (List Char) :=
  (splitOnChar ',' (ls.getD 0 [])).map (fun h => jsToLower (jsTrim h))

/-- Required columns absent from the header, in required order. -/
def missingCols (hdr : List (List Char)) : List (List Char) :=
  requiredCols.filter (fun c => ¬ hdr.contains c)

/-- The valid data rows of the text, in order. -/
def validSamples (text : String) : List (Sample ℚ) :=
  (csvLines text).tail.filterMap (parseRow (headerOf (csvLines text)))

/-- parseCSV from src/unnamed/part_001 lines 14-74.  The source returns a
record with a null signal and a message on failure; this is modelled with
Except. -/
def parseCSV (text : String) : Except String (List (Sample ℚ)) :=
  let lns := csvLines text
  if lns.length < 2 then
    .error "CSV must have a header row and at least one data row."
  else
    let hdr := headerOf lns
    let missing := missingCols hdr
    if missing ≠ [] then
      .error ("Missing required columns: "
        ++ String.intercalate ", " (missing.map (fun cs => String.mk cs))
        ++ ". Expected: time, Fp1, F3, C3, P3, O1")
    else
      let signal := lns.tail.filterMap (parseRow hdr)
      if signal.length = 0 then
        .error "No valid numeric data rows found in the CSV."
      else if signal.length < 128 then
        .error ("CSV too short (" ++ toString signal.length
          ++ " rows). Need at least 128 data rows (~0.5 seconds at 256Hz) for accurate frequency analysis.")
      else
        .ok signal

/-! ### Measured-mode spectral estimation (src/unnamed/part_001) -/

/-- estimateSampleRate from src/unnamed/part_001 lines 81-88. -/
noncomputable def estimateSampleRate (signal : List (Sample ℝ)) : ℤ :=
  match signal with
  | s0 :: s1 :: _ =>
    let dt := s1.time - s0.time
    if dt ≤ 0 then 256 else jsRound (1 / dt)
  | _ => 256

/-- Integer frequencies from a to b inclusive. -/
def intRange (a b : ℤ) : List ℤ :=
  (List.range (b + 1 - a).toNat).map (fun i => a + i)

/-- goertzelPower from src/unnamed/part_001 lines 99-115: the squared
magnitude of one DFT bin, computed by the second-order recurrence. -/
noncomputable def goertzelPower (data : List ℝ) (targetFreq : ℤ) (sampleRate : ℤ) : ℝ :=
  let N := data.length
  let k : ℤ := jsRound ((targetFreq : ℝ) * N / sampleRate)
  let w : ℝ := 2 * Real.pi * k / N
  let coeff := 2 * Real.cos w
  let s := data.foldl (fun (p : ℝ × ℝ) x => (x + coeff * p.1 - p.2, p.1)) (0, 0)
  |(s.1 * s.1 + s.2 * s.2 - coeff * s.1 * s.2) / ((N : ℝ) * N)|

/-- The five channel accessors in source order. -/
def channelAccessors : List (Sample ℝ → ℝ) :=
  [Sample.Fp1, Sample.F3, Sample.C3, Sample.P3, Sample.O1]

/-- Raw (pre-normalization) power of one band: per channel, remove the DC
mean and sum Goertzel power over every integer frequency from the band low
edge up to the band high edge capped at Nyquist; then sum over the five
channels and divide by the channel count. -/
noncomputable def rawBandPower (signal : List (Sample ℝ)) (sfreq : ℤ) (fLow fHigh : ℝ) : ℝ :=
  let hi : ℝ := min fHigh ((sfreq : ℝ) / 2)
  (channelAccessors.map (fun ch =>
    let data := signal.map ch
    let mean := data.sum / (data.length : ℝ)
    let centered := data.map (fun v => v - mean)
    ((intRange ⌈fLow⌉ ⌊hi⌋).map (fun f => goertzelPower centered f sfreq)).sum)).sum / 5

/-- The five raw band powers of a signal (delta 0.5-4, theta 4-8, alpha
8-13, beta 13-30, gamma 30-50 Hz). -/
noncomputable def rawBandPowers (signal : List (Sample ℝ)) : BandPowers ℝ :=
  let sfreq := estimateSampleRate signal
  { delta := rawBandPower signal sfreq 0.5 4
    theta := rawBandPower signal sfreq 4 8
    alpha := rawBandPower signal sfreq 8 13
    beta := rawBandPower signal sfreq 13 30
    gamma := rawBandPower signal sfreq 30 50 }

/-- Sum of the five entries of a band power record. -/
def bpSum (bp : BandPowers α) : α := bp.delta + bp.theta + bp.alpha + bp.beta + bp.gamma

/-- computeBandPowersFromSignal from src/unnamed/part_001 lines 117-178:
raw Goertzel band powers, rescaled to total 4.4 and rounded to 4 decimals
when the raw total is positive. -/
noncomputable def computeBandPowersFromSignal (signal : List (Sample ℝ)) : BandPowers ℝ :=
  let raw := rawBandPowers signal
  let rawTotal := bpSum raw
  if rawTotal > 0 then
    let scale := (4.4 : ℝ) / rawTotal
    { delta := roundTo 4 (raw.delta * scale)
      theta := roundTo 4 (raw.theta * scale)
      alpha := roundTo 4 (raw.alpha * scale)
      beta := roundTo 4 (raw.beta * scale)
      gamma := roundTo 4 (raw.gamma * scale) }
  else raw

/-! ### Full CSV pipeline (src/unnamed/part_001, analyzeCSV) -/

/-- Result record of both analysis pipelines. -/
structure AnalysisResult where
  riskScore : ℤ
  confidence : ℤ
  keyMarker : String
  keyDeviation : String
  classification : Classification
  eegSignal : List (Sample ℝ)
  bandPowers : BandPowers ℝ
  shapValues : List (ShapEntry ℝ)
  coherence : List (String × ℝ)

/-- analyzeCSV from src/unnamed/part_001 lines 244-276: band powers, then
a seed derived from the alpha power, then score, classification, SHAP and
coherence; the raw signal reappears only in the eegSignal field (capped to
1280 points). -/
noncomputable def analyzeCSV (signal : List (Sample ℝ)) : AnalysisResult :=
  let bandPowers := computeBandPowersFromSignal signal
  let seed := alphaSeed bandPowers
  let riskResult := computeRiskScore bandPowers seed
  let classification := classifyRisk riskResult.score
  let shapValues := generateSHAPFromBandPowers bandPowers
  let isSZLike := riskResult.score ≥ 50
  let coherence := computeCoherence isSZLike seed
  { riskScore := riskResult.score
    confidence := riskResult.confidence
    keyMarker := riskResult.keyMarker
    keyDeviation := riskResult.keyDeviation
    classification := classification
    eegSignal := signal.take 1280
    bandPowers := bandPowers
    shapValues := shapValues
    coherence := coherence }

/-! ### Synthetic signal generation (src/src/utils/eegUtils.js,
generateEEGSignal) -/

/-- Per-channel amplitude and phase parameters. -/
structure ChanParams where
  dA : ℝ
  tA : ℝ
  aA : ℝ
  bA : ℝ
  gA : ℝ
  dP : ℝ
  tP : ℝ
  aP : ℝ
  bP : ℝ
  gP : ℝ

instance : Inhabited ChanParams := ⟨⟨0, 0, 0, 0, 0, 0, 0, 0, 0, 0⟩⟩

/-- The five phase offsets drawn after the amplitude draws. -/
noncomputable def phasesFrom (st : ℕ) : (ℝ × ℝ × ℝ × ℝ × ℝ) × ℕ :=
  let dP := mbDraw st * (2 * Real.pi)
  let st1 := mbNext st
  let tP := mbDraw st1 * (2 * Real.pi)
  let st2 := mbNext st1
  let aP := mbDraw st2 * (2 * Real.pi)
  let st3 := mbNext st2
  let bP := mbDraw st3 * (2 * Real.pi)
  let st4 := mbNext st3
  let gP := mbDraw st4 * (2 * Real.pi)
  ((dP, tP, aP, bP, gP), mbNext st4)

/-- Parameter setup for one channel (src/src/utils/eegUtils.js lines
34-61): five base amplitude draws; under the pathology flag four
multiplier draws adjusting delta, theta, alpha and gamma, otherwise four
discarded draws; then the five phase draws. -/
noncomputable def chanParams (isSZ : Bool) (st : ℕ) : ChanParams × ℕ :=
  let dA0 : ℝ := 0.5 + mbDraw st * 1.0
  let st1 := mbNext st
  let tA0 : ℝ := 0.3 + mbDraw st1 * 0.5
  let st2 := mbNext st1
  let aA0 : ℝ := 0.8 + mbDraw st2 * 1.2
  let st3 := mbNext st2
  let bA0 : ℝ := 0.2 + mbDraw st3 * 0.4
  let st4 := mbNext st3
  let gA0 : ℝ := 0.1 + mbDraw st4 * 0.2
  let st5 := mbNext st4
  if isSZ then
    let dA := dA0 * (1.8 + mbDraw st5 * 0.7)
    let st6 := mbNext st5
    let tA := tA0 * (1.5 + mbDraw st6 * 0.5)
    let st7 := mbNext st6
    let aA := aA0 * (0.3 + mbDraw st7 * 0.3)
    let st8 := mbNext st7
    let gA := gA0 * (1.5 + mbDraw st8 * 0.7)
    let st9 := mbNext st8
    let ph := phasesFrom st9
    (⟨dA, tA, aA, bA0, gA, ph.1.1, ph.1.2.1, ph.1.2.2.1, ph.1.2.2.2.1, ph.1.2.2.2.2⟩, ph.2)
  else
    let st9 := mbNext (mbNext (mbNext (mbNext st5)))
    let ph := phasesFrom st9
    (⟨dA0, tA0, aA0, bA0, gA0, ph.1.1, ph.1.2.1, ph.1.2.2.1, ph.1.2.2.2.1, ph.1.2.2.2.2⟩, ph.2)

/-- Parameters of all five channels, threading the PRNG state. -/
noncomputable def allParams (isSZ : Bool) (st : ℕ) : List ChanParams × ℕ :=
  mapRng (fun _ => chanParams isSZ) [0, 1, 2, 3, 4] st

/-- Value of one channel at time t with its noise draw added. -/
noncomputable def chanValue (p : ChanParams) (t : ℝ) (noise : ℝ) : ℝ :=
  p.dA * Real.sin (2 * Real.pi * 2 * t + p.dP) +
  p.tA * Real.sin (2 * Real.pi * 6 * t + p.tP) +
  p.aA * Real.sin (2 * Real.pi * 10 * t + p.aP) +
  p.bA * Real.sin (2 * Real.pi * 20 * t + p.bP) +
  p.gA * Real.sin (2 * Real.pi * 40 * t + p.gP) +
  noise

/-- The centered per-sample noise value drawn at a PRNG state. -/
noncomputable def noiseAt (st : ℕ) : ℝ := (mbDraw st - 0.5) * 0.6

/-- One sample of the signal: one noise draw per channel, in channel
order. -/
noncomputable def samplePoint (ps : List ChanParams) (i : ℕ) (st : ℕ) : Sample ℝ × ℕ :=
  let t : ℝ := (i : ℝ) / 256
  let st1 := mbNext st
  let st2 := mbNext st1
  let st3 := mbNext st2
  let st4 := mbNext st3
  ({ time := roundTo 4 t
     Fp1 := chanValue (ps.getD 0 default) t (noiseAt st)
     F3 := chanValue (ps.getD 1 default) t (noiseAt st1)
     C3 := chanValue (ps.getD 2 default) t (noiseAt st2)
     P3 := chanValue (ps.getD 3 default) t (noiseAt st3)
     O1 := chanValue (ps.getD 4 default) t (noiseAt st4) },
   mbNext st4)

/-- The 1280 samples built from fixed channel parameters and the PRNG
state left after parameter setup. -/
noncomputable def signalFromParams (ps : List ChanParams) (st : ℕ) : List (Sample ℝ) :=
  (mapRng (samplePoint ps) (List.range 1280) st).1

/-- generateEEGSignal from src/src/utils/eegUtils.js lines 25-87. -/
noncomputable def generateEEGSignal (isSZ : Bool) (seed : ℤ) : List (Sample ℝ) :=
  let p := allParams isSZ (toUInt32 seed)
  signalFromParams p.1 p.2

/-- The five phase offsets of a channel parameter record. -/
def phasesOf (p : ChanParams) : ℝ × ℝ × ℝ × ℝ × ℝ := (p.dP, p.tP, p.aP, p.bP, p.gP)

/-! ### PRNG output bounds -/

set_option linter.unnecessarySeqFocus false
set_option linter.unusedSectionVars false

theorem xor32_lt {x y : ℕ} (hx : x < 4294967296) (hy : y < 4294967296) :
    x ^^^ y < 4294967296 := by
  have h := Nat.xor_lt_two_pow (n := 32) (x := x) (y := y) (by norm_num at hx ⊢; exact hx)
    (by norm_num at hy ⊢; exact hy)
  norm_num at h
  exact h

theorem mbOut_lt (st : ℕ) : mbOut st < 4294967296 := by
  have hmod : ∀ n : ℕ, n % 4294967296 < 4294967296 := fun n => Nat.mod_lt _ (by norm_num)
  have hshift : ∀ x k : ℕ, x >>> k ≤ x := fun x k => by
    simpa [Nat.shiftRight_eq_div_pow] using Nat.div_le_self x (2 ^ k)
  simp only [mbOut, mulberry32Step]
  exact xor32_lt (xor32_lt (hmod _) (hmod _))
    (lt_of_le_of_lt (hshift _ _) (xor32_lt (hmod _) (hmod _)))

theorem mbDraw_nonneg (st : ℕ) : (0 : ℚ) ≤ mbDraw st := by
  unfold mbDraw
  positivity

theorem mbDraw_lt_one (st : ℕ) : (mbDraw st : ℚ) < 1 := by
  unfold mbDraw
  rw [div_lt_one (by norm_num)]
  exact_mod_cast mbOut_lt st

/-! ### Claim C5 -/

/-- Claim C5: classifyRisk returns level High Risk exactly when the score
is at least 60, Moderate exactly when it is in [40, 60), and Low Risk
exactly when it is below 40; the stated boundary instances 59, 60, 39 and
40 are special cases of the three equivalences. -/
theorem classifyRisk_level_boundaries (score : ℤ) :
    ((classifyRisk score).level = "High Risk" ↔ 60 ≤ score) ∧
    ((classifyRisk score).level = "Moderate" ↔ 40 ≤ score ∧ score < 60) ∧
    ((classifyRisk score).level = "Low Risk" ↔ score < 40) := by
  unfold classifyRisk
  split_ifs with h1 h2 <;> simp_all <;> omega

/-! ### Claim C1 -/

/-- Score computed exactly as claim C1 words it: the four UNROUNDED
deviation components summed, scaled by 1.2, rounded to the nearest
integer and clamped to [0, 100].  The source differs: it rounds every
component to 2 decimals (toFixed(2)) before summing. -/
def scoreSpecUnrounded (bp : BandPowers ℚ) : ℤ :=
  min 100 (max 0 (jsRound (((bp.delta / 1.2 - 1) * 20 + (bp.theta / 0.7 - 1) * 15
    + (1 - bp.alpha / 1.8) * 35 + (bp.gamma / 0.2 - 1) * 10) * 1.2)))

/-- Claim C1, counterexample: at delta 1.27482 with the other bands at
baseline, the delta component is 1.247, which the source rounds to 1.25;
1.25 * 1.2 = 1.5 rounds to score 2, while the claim formula gives
round(1.247 * 1.2) = round(1.4964) = 1. -/
theorem riskScore_score_unrounded_counterexample :
    (computeRiskScore (BandPowers.mk 1.27482 0.7 1.8 0.5 0.2 : BandPowers ℚ) (0 : ℤ)).score ≠
      scoreSpecUnrounded (BandPowers.mk 1.27482 0.7 1.8 0.5 0.2 : BandPowers ℚ) := by
  simp only [computeRiskScore, scoreSpecUnrounded]
  norm_num [roundTo, jsRound]

/-- Claim C1 as amended: for every band power record and seed the score
equals the four components, each rounded to 2 decimals, summed, scaled by
1.2, rounded to the nearest integer and clamped to [0, 100]; in
particular the score is an integer between 0 and 100. -/
theorem riskScore_score_formula (bp : BandPowers ℚ) (seed : ℤ) :
    (computeRiskScore bp seed).score =
      min 100 (max 0 (jsRound ((roundTo 2 ((bp.delta / 1.2 - 1) * 20)
        + roundTo 2 ((bp.theta / 0.7 - 1) * 15) + roundTo 2 ((1 - bp.alpha / 1.8) * 35)
        + roundTo 2 ((bp.gamma / 0.2 - 1) * 10)) * 1.2))) ∧
    0 ≤ (computeRiskScore bp seed).score ∧ (computeRiskScore bp seed).score ≤ 100 := by
  refine ⟨rfl, ?_, ?_⟩
  · exact le_min (by norm_num) (le_max_left _ _)
  · exact min_le_left _ _

/-! ### Claim C3 -/

/-- Confidence computed exactly as claim C3 words it: 80 plus the FLOOR
of the first draw scaled by 15.  The source differs: it applies
Math.round to the whole 80 + draw * 15 expression. -/
def confidenceSpecFloor (seed : ℤ) : ℤ :=
  80 + ⌊(mbDraw (toUInt32 (seed + 2000)) : ℚ) * 15⌋

/-- Claim C3, counterexample: at seed 0 the first draw of
mulberry32(2000) is 4235846816 / 2^32, whose scaled value 14.79... gives
94 under the claim floor formula but 95 under the source Math.round. -/
theorem riskScore_confidence_floor_counterexample :
    (computeRiskScore (BandPowers.mk 1.2 0.7 1.8 0.5 0.2 : BandPowers ℚ) (0 : ℤ)).confidence ≠
      confidenceSpecFloor 0 := by
  have h : mbOut (toUInt32 ((0 : ℤ) + 2000)) = 4235846816 := by decide
  simp only [computeRiskScore, confidenceSpecFloor, mbDraw, h]
  norm_num [jsRound]

/-- Claim C3 as amended: for every band power record and seed the
confidence equals Math.round(80 + r * 15) where r is the first draw of
the PRNG seeded with seed + 2000, and it is an integer in [80, 95]. -/
theorem riskScore_confidence_formula (bp : BandPowers ℚ) (seed : ℤ) :
    (computeRiskScore bp seed).confidence
      = jsRound ((80 : ℚ) + mbDraw (toUInt32 (seed + 2000)) * 15) ∧
    80 ≤ (computeRiskScore bp seed).confidence ∧
    (computeRiskScore bp seed).confidence ≤ 95 := by
  have h0 := mbDraw_nonneg (toUInt32 (seed + 2000))
  have h1 := mbDraw_lt_one (toUInt32 (seed + 2000))
  refine ⟨rfl, ?_, ?_⟩
  · show (80 : ℤ) ≤ jsRound ((80 : ℚ) + mbDraw (toUInt32 (seed + 2000)) * 15)
    unfold jsRound
    refine Int.le_floor.mpr ?_
    push_cast
    nlinarith
  · show jsRound ((80 : ℚ) + mbDraw (toUInt32 (seed + 2000)) * 15) ≤ 95
    unfold jsRound
    refine Int.lt_add_one_iff.mp (Int.floor_lt.mpr ?_)
    push_cast
    nlinarith

/-! ### Claim C4 -/

/-- The band the claim describes: the first band in the order delta,
theta, alpha, gamma whose component attains the maximum of the four
component values. -/
def firstMaxBand (c1 c2 c3 c4 : ℚ) : String :=
  if c1 = max (max (max c1 c2) c3) c4 then "delta"
  else if c2 = max (max (max c1 c2) c3) c4 then "theta"
  else if c3 = max (max (max c1 c2) c3) c4 then "alpha"
  else "gamma"

/-- The source reduce with strict-greater comparison selects exactly the
first band attaining the maximum component. -/
theorem foldPick_eq_firstMaxBand (c1 c2 c3 c4 : ℚ) :
    (List.foldl (fun a b => if b.2 > a.2 then b else a) ("delta", c1)
      [("theta", c2), ("alpha", c3), ("gamma", c4)]).1 = firstMaxBand c1 c2 c3 c4 := by
  unfold firstMaxBand
  simp only [List.foldl]
  dsimp only
  by_cases h2 : c2 > c1
  · rw [if_pos h2]
    dsimp only
    by_cases h3 : c3 > c2
    · rw [if_pos h3]
      dsimp only
      by_cases h4 : c4 > c3
      · rw [if_pos h4]
        dsimp only
        rw [max_eq_right h2.le, max_eq_right h3.le, max_eq_right h4.le]
        rw [if_neg (ne_of_lt (lt_trans (lt_trans h2 h3) h4)),
          if_neg (ne_of_lt (lt_trans h3 h4)), if_neg (ne_of_lt h4)]
      · rw [if_neg h4]
        dsimp only
        rw [max_eq_right h2.le, max_eq_right h3.le, max_eq_left (not_lt.mp h4)]
        rw [if_neg (ne_of_lt (lt_trans h2 h3)), if_neg (ne_of_lt h3), if_pos rfl]
    · rw [if_neg h3]
      dsimp only
      by_cases h4 : c4 > c2
      · rw [if_pos h4]
        dsimp only
        rw [max_eq_right h2.le, max_eq_left (not_lt.mp h3), max_eq_right h4.le]
        rw [if_neg (ne_of_lt (lt_trans h2 h4)), if_neg (ne_of_lt h4),
          if_neg (ne_of_lt (lt_of_le_of_lt (not_lt.mp h3) h4))]
      · rw [if_neg h4]
        dsimp only
        rw [max_eq_right h2.le, max_eq_left (not_lt.mp h3), max_eq_left (not_lt.mp h4)]
        rw [if_neg (ne_of_lt h2), if_pos rfl]
  · rw [if_neg h2]
    dsimp only
    by_cases h3 : c3 > c1
    · rw [if_pos h3]
      dsimp only
      by_cases h4 : c4 > c3
      · rw [if_pos h4]
        dsimp only
        rw [max_eq_left (not_lt.mp h2), max_eq_right h3.le, max_eq_right h4.le]
        rw [if_neg (ne_of_lt (lt_trans h3 h4)),
          if_neg (ne_of_lt (lt_of_le_of_lt (not_lt.mp h2) (lt_trans h3 h4))),
          if_neg (ne_of_lt h4)]
      · rw [if_neg h4]
        dsimp only
        rw [max_eq_left (not_lt.mp h2), max_eq_right h3.le, max_eq_left (not_lt.mp h4)]
        rw [if_neg (ne_of_lt h3), if_neg (ne_of_lt (lt_of_le_of_lt (not_lt.mp h2) h3)),
          if_pos rfl]
    · rw [if_neg h3]
      dsimp only
      by_cases h4 : c4 > c1
      · rw [if_pos h4]
        dsimp only
        rw [max_eq_left (not_lt.mp h2), max_eq_left (not_lt.mp h3), max_eq_right h4.le]
        rw [if_neg (ne_of_lt h4), if_neg (ne_of_lt (lt_of_le_of_lt (not_lt.mp h2) h4)),
          if_neg (ne_of_lt (lt_of_le_of_lt (not_lt.mp h3) h4))]
      · rw [if_neg h4]
        dsimp only
        rw [max_eq_left (not_lt.mp h2), max_eq_left (not_lt.mp h3), max_eq_left (not_lt.mp h4)]
        rw [if_pos rfl]

/-- Claim C4: the key marker is the fixed label of the band delivered by
the left-to-right strict-greater reduction over the components in the
order delta, theta, alpha, gamma, which is the first band attaining the
maximum component value, so exact ties resolve to the first-seen
maximum. -/
theorem riskScore_keyMarker_firstMax (bp : BandPowers ℚ) (seed : ℤ) :
    (computeRiskScore bp seed).keyMarker =
      markerMap (firstMaxBand (roundTo 2 ((bp.delta / 1.2 - 1) * 20))
        (roundTo 2 ((bp.theta / 0.7 - 1) * 15)) (roundTo 2 ((1 - bp.alpha / 1.8) * 35))
        (roundTo 2 ((bp.gamma / 0.2 - 1) * 10))) :=
  congrArg markerMap (foldPick_eq_firstMaxBand _ _ _ _)

/-! ### Claim C7 -/

theorem mapRng_length {β γ : Type} (f : β → ℕ → γ × ℕ) (xs : List β) (st : ℕ) :
    (mapRng f xs st).1.length = xs.length := by
  induction xs generalizing st with
  | nil => rfl
  | cons x xs ih => simp [mapRng, ih]

theorem sortByAbsDesc_length (l : List (ShapEntry α)) :
    (sortByAbsDesc l).length = l.length := by
  unfold sortByAbsDesc
  exact List.length_mergeSort l

theorem sortByAbsDesc_pairwise (l : List (ShapEntry α)) :
    (sortByAbsDesc l).Pairwise (fun a b => |b.value| ≤ |a.value|) := by
  unfold sortByAbsDesc
  refine List.Pairwise.imp (fun hab => of_decide_eq_true hab)
    (List.sorted_mergeSort ?_ ?_ l)
  · exact fun a b c hab hbc =>
      decide_eq_true (le_trans (of_decide_eq_true hbc) (of_decide_eq_true hab))
  · intro a b
    simp only [Bool.or_eq_true, decide_eq_true_eq]
    exact le_total _ _

/-- Claim C7: both attribution generators return exactly 15 entries, and
the returned list is non-increasing in absolute value, for every input
(pathology flag and seed in simulated mode; band powers in measured
mode). -/
theorem shap_length_and_ordering :
    (∀ (isSZ : Bool) (seed : ℤ),
        (generateSHAPValues isSZ seed).length = 15 ∧
        (generateSHAPValues isSZ seed).Pairwise (fun a b => |b.value| ≤ |a.value|)) ∧
    (∀ bp : BandPowers ℚ,
        (generateSHAPFromBandPowers bp).length = 15 ∧
        (generateSHAPFromBandPowers bp).Pairwise (fun a b => |b.value| ≤ |a.value|)) := by
  refine ⟨fun isSZ seed => ⟨?_, ?_⟩, fun bp => ⟨?_, ?_⟩⟩
  · simp only [generateSHAPValues]
    rw [sortByAbsDesc_length, mapRng_length]
    rfl
  · exact sortByAbsDesc_pairwise _
  · simp only [generateSHAPFromBandPowers]
    rw [sortByAbsDesc_length, mapRng_length]
    rfl
  · exact sortByAbsDesc_pairwise _

/-! ### Claim C9 -/

/-- Claim C9: every field of the analyzeCSV result except eegSignal is a
function of the band powers alone — the seed for confidence, attribution
noise and coherence is derived from the alpha band power, so two signals
with equal computeBandPowersFromSignal outputs get identical riskScore,
confidence, keyMarker, keyDeviation, classification, bandPowers,
shapValues and coherence. -/
theorem analyzeCSV_band_power_determined (s1 s2 : List (Sample ℝ))
    (h : computeBandPowersFromSignal s1 = computeBandPowersFromSignal s2) :
    (analyzeCSV s1).riskScore = (analyzeCSV s2).riskScore ∧
    (analyzeCSV s1).confidence = (analyzeCSV s2).confidence ∧
    (analyzeCSV s1).keyMarker = (analyzeCSV s2).keyMarker ∧
    (analyzeCSV s1).keyDeviation = (analyzeCSV s2).keyDeviation ∧
    (analyzeCSV s1).classification = (analyzeCSV s2).classification ∧
    (analyzeCSV s1).bandPowers = (analyzeCSV s2).bandPowers ∧
    (analyzeCSV s1).shapValues = (analyzeCSV s2).shapValues ∧
    (analyzeCSV s1).coherence = (analyzeCSV s2).coherence := by
  simp [analyzeCSV, h]

theorem analyzeCSV_band_power_determined_witness :
    computeBandPowersFromSignal [] = computeBandPowersFromSignal [] ∧
    ((analyzeCSV []).riskScore = (analyzeCSV []).riskScore ∧
     (analyzeCSV []).confidence = (analyzeCSV []).confidence ∧
     (analyzeCSV []).keyMarker = (analyzeCSV []).keyMarker ∧
     (analyzeCSV []).keyDeviation = (analyzeCSV []).keyDeviation ∧
     (analyzeCSV []).classification = (analyzeCSV []).classification ∧
     (analyzeCSV []).bandPowers = (analyzeCSV []).bandPowers ∧
     (analyzeCSV []).shapValues = (analyzeCSV []).shapValues ∧
     (analyzeCSV []).coherence = (analyzeCSV []).coherence) :=
  ⟨rfl, analyzeCSV_band_power_determined [] [] rfl⟩

/-! ### Claim C8 -/

/-- The PRNG state reached after n further draws. -/
def mbIter (n : ℕ) (st : ℕ) : ℕ := mbNext^[n] st

/-- Claim C8: for every seed the pathological and healthy runs of the
signal generator consume the same number of PRNG draws during per-channel
parameter setup (the four multiplier draws are matched by four discarded
draws), so the post-setup PRNG states coincide, the per-channel phase
offsets coincide, every later noise draw coincides, and the two signals
are built by the same sample construction from parameters differing only
in amplitudes. -/
theorem generateSignal_branch_invariance (seed : ℤ) :
    (allParams true (toUInt32 seed)).2 = (allParams false (toUInt32 seed)).2 ∧
    (allParams true (toUInt32 seed)).1.map phasesOf
      = (allParams false (toUInt32 seed)).1.map phasesOf ∧
    (∀ n : ℕ, noiseAt (mbIter n (allParams true (toUInt32 seed)).2)
      = noiseAt (mbIter n (allParams false (toUInt32 seed)).2)) ∧
    generateEEGSignal true seed
      = signalFromParams (allParams true (toUInt32 seed)).1 (allParams true (toUInt32 seed)).2 ∧
    generateEEGSignal false seed
      = signalFromParams (allParams false (toUInt32 seed)).1 (allParams false (toUInt32 seed)).2 := by
  have h1 : (allParams true (toUInt32 seed)).2 = (allParams false (toUInt32 seed)).2 := rfl
  exact ⟨h1, rfl, fun n => by rw [h1], rfl, rfl⟩

/-! ### Claim C2 -/

theorem goertzelPower_nonneg (data : List ℝ) (f sr : ℤ) : 0 ≤ goertzelPower data f sr := by
  unfold goertzelPower
  exact abs_nonneg _

theorem rawBandPower_nonneg (signal : List (Sample ℝ)) (sfreq : ℤ) (fLow fHigh : ℝ) :
    0 ≤ rawBandPower signal sfreq fLow fHigh := by
  unfold rawBandPower
  refine div_nonneg (List.sum_nonneg ?_) (by norm_num)
  intro x hx
  obtain ⟨ch, _, rfl⟩ := List.mem_map.mp hx
  refine List.sum_nonneg ?_
  intro y hy
  obtain ⟨f, _, rfl⟩ := List.mem_map.mp hy
  exact goertzelPower_nonneg _ _ _

theorem roundTo4_err (x : ℝ) : |roundTo 4 x - x| ≤ 1 / 20000 := by
  unfold roundTo jsRound
  have hp : ((10 : ℝ)) ^ (4 : ℕ) = 10000 := by norm_num
  rw [hp]
  have h1 : ((⌊x * 10000 + 1 / 2⌋ : ℤ) : ℝ) ≤ x * 10000 + 1 / 2 := Int.floor_le _
  have h2 : x * 10000 + 1 / 2 - 1 < ((⌊x * 10000 + 1 / 2⌋ : ℤ) : ℝ) := Int.sub_one_lt_floor _
  rw [abs_le]
  exact ⟨by linarith, by linarith⟩

/-- Claim C2: for every signal, either the raw Goertzel band total is
zero and all five powers are left at zero (no division occurs), or every
band is the raw band power rescaled by one common positive factor
(preserving inter-band ratios) and rounded to 4 decimals, and the five
powers sum to 4.4 within the 4-decimal rounding slack of 0.00005 per
band. -/
theorem bandPowers_normalization_sum (signal : List (Sample ℝ)) :
    (bpSum (rawBandPowers signal) = 0 ∧
      computeBandPowersFromSignal signal = rawBandPowers signal ∧
      (rawBandPowers signal).delta = 0 ∧ (rawBandPowers signal).theta = 0 ∧
      (rawBandPowers signal).alpha = 0 ∧ (rawBandPowers signal).beta = 0 ∧
      (rawBandPowers signal).gamma = 0) ∨
    (∃ scale : ℝ, 0 < scale ∧
      (computeBandPowersFromSignal signal).delta = roundTo 4 ((rawBandPowers signal).delta * scale) ∧
      (computeBandPowersFromSignal signal).theta = roundTo 4 ((rawBandPowers signal).theta * scale) ∧
      (computeBandPowersFromSignal signal).alpha = roundTo 4 ((rawBandPowers signal).alpha * scale) ∧
      (computeBandPowersFromSignal signal).beta = roundTo 4 ((rawBandPowers signal).beta * scale) ∧
      (computeBandPowersFromSignal signal).gamma = roundTo 4 ((rawBandPowers signal).gamma * scale) ∧
      |bpSum (computeBandPowersFromSignal signal) - 4.4| ≤ 0.00025) := by
  have hd : 0 ≤ (rawBandPowers signal).delta := rawBandPower_nonneg _ _ _ _
  have ht : 0 ≤ (rawBandPowers signal).theta := rawBandPower_nonneg _ _ _ _
  have ha : 0 ≤ (rawBandPowers signal).alpha := rawBandPower_nonneg _ _ _ _
  have hb : 0 ≤ (rawBandPowers signal).beta := rawBandPower_nonneg _ _ _ _
  have hg : 0 ≤ (rawBandPowers signal).gamma := rawBandPower_nonneg _ _ _ _
  have e : bpSum (rawBandPowers signal) = (rawBandPowers signal).delta
      + (rawBandPowers signal).theta + (rawBandPowers signal).alpha
      + (rawBandPowers signal).beta + (rawBandPowers signal).gamma := rfl
  by_cases hpos : bpSum (rawBandPowers signal) > 0
  · right
    have hne : bpSum (rawBandPowers signal) ≠ 0 := ne_of_gt hpos
    have hcbp : computeBandPowersFromSignal signal =
        { delta := roundTo 4 ((rawBandPowers signal).delta * (4.4 / bpSum (rawBandPowers signal)))
          theta := roundTo 4 ((rawBandPowers signal).theta * (4.4 / bpSum (rawBandPowers signal)))
          alpha := roundTo 4 ((rawBandPowers signal).alpha * (4.4 / bpSum (rawBandPowers signal)))
          beta := roundTo 4 ((rawBandPowers signal).beta * (4.4 / bpSum (rawBandPowers signal)))
          gamma := roundTo 4 ((rawBandPowers signal).gamma * (4.4 / bpSum (rawBandPowers signal))) } := by
      simp only [computeBandPowersFromSignal]
      rw [if_pos hpos]
    refine ⟨4.4 / bpSum (rawBandPowers signal), by positivity, ?_, ?_, ?_, ?_, ?_, ?_⟩
    · rw [hcbp]
    · rw [hcbp]
    · rw [hcbp]
    · rw [hcbp]
    · rw [hcbp]
    · have hTscale : bpSum (rawBandPowers signal) * (4.4 / bpSum (rawBandPowers signal)) = 4.4 := by
        field_simp
      have hsum : (rawBandPowers signal).delta * (4.4 / bpSum (rawBandPowers signal))
          + (rawBandPowers signal).theta * (4.4 / bpSum (rawBandPowers signal))
          + (rawBandPowers signal).alpha * (4.4 / bpSum (rawBandPowers signal))
          + (rawBandPowers signal).beta * (4.4 / bpSum (rawBandPowers signal))
          + (rawBandPowers signal).gamma * (4.4 / bpSum (rawBandPowers signal)) = 4.4 := by
        calc (rawBandPowers signal).delta * (4.4 / bpSum (rawBandPowers signal))
              + (rawBandPowers signal).theta * (4.4 / bpSum (rawBandPowers signal))
              + (rawBandPowers signal).alpha * (4.4 / bpSum (rawBandPowers signal))
              + (rawBandPowers signal).beta * (4.4 / bpSum (rawBandPowers signal))
              + (rawBandPowers signal).gamma * (4.4 / bpSum (rawBandPowers signal))
            = ((rawBandPowers signal).delta + (rawBandPowers signal).theta
              + (rawBandPowers signal).alpha + (rawBandPowers signal).beta
              + (rawBandPowers signal).gamma) * (4.4 / bpSum (rawBandPowers signal)) := by ring
          _ = bpSum (rawBandPowers signal) * (4.4 / bpSum (rawBandPowers signal)) := by rw [← e]
          _ = 4.4 := hTscale
      have e1 := roundTo4_err ((rawBandPowers signal).delta * (4.4 / bpSum (rawBandPowers signal)))
      have e2 := roundTo4_err ((rawBandPowers signal).theta * (4.4 / bpSum (rawBandPowers signal)))
      have e3 := roundTo4_err ((rawBandPowers signal).alpha * (4.4 / bpSum (rawBandPowers signal)))
      have e4 := roundTo4_err ((rawBandPowers signal).beta * (4.4 / bpSum (rawBandPowers signal)))
      have e5 := roundTo4_err ((rawBandPowers signal).gamma * (4.4 / bpSum (rawBandPowers signal)))
      rw [abs_le] at e1 e2 e3 e4 e5
      rw [hcbp]
      show |roundTo 4 _ + roundTo 4 _ + roundTo 4 _ + roundTo 4 _ + roundTo 4 _ - 4.4| ≤ 0.00025
      rw [abs_le]
      exact ⟨by linarith, by linarith⟩
  · left
    have h0 : bpSum (rawBandPowers signal) = 0 := by
      refine le_antisymm (not_lt.mp hpos) ?_
      rw [e]
      positivity
    have hcbp : computeBandPowersFromSignal signal = rawBandPowers signal := by
      simp only [computeBandPowersFromSignal]
      rw [if_neg hpos]
    rw [e] at h0
    exact ⟨by rw [e]; linarith, hcbp, by linarith, by linarith, by linarith, by linarith,
      by linarith⟩

/-! ### Claim C6 -/

/-- Claim C6: for every CSV text with at least two non-blank lines, a
header containing all six required columns, and between 1 and 127 valid
data rows after filtering, parseCSV returns the too-short validation
failure whose message states the actual valid-row count and the 128
minimum. -/
theorem parseCSV_insufficient_samples (text : String)
    (h2 : 2 ≤ (csvLines text).length)
    (hm : missingCols (headerOf (csvLines text)) = [])
    (h1 : 1 ≤ (validSamples text).length)
    (h127 : (validSamples text).length ≤ 127) :
    parseCSV text = Except.error ("CSV too short (" ++ toString (validSamples text).length
      ++ " rows). Need at least 128 data rows (~0.5 seconds at 256Hz) for accurate frequency analysis.") := by
  have hval : (csvLines text).tail.filterMap (parseRow (headerOf (csvLines text)))
      = validSamples text := rfl
  simp only [parseCSV, hval]
  rw [if_neg (by omega), if_neg (by simp [hm]), if_neg (by omega), if_pos (by omega)]

theorem parseCSV_insufficient_samples_witness :
    (2 ≤ (csvLines "time,Fp1,F3,C3,P3,O1\n0,1,2,3,4,5").length ∧
     missingCols (headerOf (csvLines "time,Fp1,F3,C3,P3,O1\n0,1,2,3,4,5")) = [] ∧
     1 ≤ (validSamples "time,Fp1,F3,C3,P3,O1\n0,1,2,3,4,5").length ∧
     (validSamples "time,Fp1,F3,C3,P3,O1\n0,1,2,3,4,5").length ≤ 127) ∧
    parseCSV "time,Fp1,F3,C3,P3,O1\n0,1,2,3,4,5"
      = Except.error ("CSV too short ("
        ++ toString (validSamples "time,Fp1,F3,C3,P3,O1\n0,1,2,3,4,5").length
        ++ " rows). Need at least 128 data rows (~0.5 seconds at 256Hz) for accurate frequency analysis.") :=
  ⟨⟨by decide, by decide, by decide, by decide⟩,
    parseCSV_insufficient_samples _ (by decide) (by decide) (by decide) (by decide)⟩

/-! ### Claim C10 -/

/-- Claim C10: a data row is parsed into the signal exactly when its
comma-split cell count reaches the header cell count and all six required
cells parse as numbers — extra cells and non-numeric values in
non-required columns never drop a row; and when the header is valid and
at least 128 rows survive, parseCSV returns exactly the surviving rows,
so malformed individual rows never produce an error. -/
theorem parseRow_row_filtering :
    (∀ (hdr : List (List Char)) (line : List Char),
        (parseRow hdr line).isSome ↔
          (hdr.length ≤ ((splitOnChar ',' line).map jsTrim).length ∧
            ∀ col ∈ requiredCols,
              (jsParseFloat (getCell ((splitOnChar ',' line).map jsTrim)
                (jsIndexOf hdr col))).isSome)) ∧
    (∀ text : String,
        missingCols (headerOf (csvLines text)) = [] →
        2 ≤ (csvLines text).length →
        128 ≤ (validSamples text).length →
        parseCSV text = Except.ok (validSamples text)) := by
  constructor
  · intro hdr line
    unfold parseRow
    by_cases hlen : ((splitOnChar ',' line).map jsTrim).length < hdr.length
    · rw [if_pos hlen]
      simp only [Option.isSome_none, Bool.false_eq_true, false_iff, not_and]
      intro hcon
      omega
    · rw [if_neg hlen]
      have hle : hdr.length ≤ ((splitOnChar ',' line).map jsTrim).length := not_lt.mp hlen
      cases h1 : jsParseFloat (getCell ((splitOnChar ',' line).map jsTrim) (jsIndexOf hdr "time".toList)) <;>
      cases h2 : jsParseFloat (getCell ((splitOnChar ',' line).map jsTrim) (jsIndexOf hdr "fp1".toList)) <;>
      cases h3 : jsParseFloat (getCell ((splitOnChar ',' line).map jsTrim) (jsIndexOf hdr "f3".toList)) <;>
      cases h4 : jsParseFloat (getCell ((splitOnChar ',' line).map jsTrim) (jsIndexOf hdr "c3".toList)) <;>
      cases h5 : jsParseFloat (getCell ((splitOnChar ',' line).map jsTrim) (jsIndexOf hdr "p3".toList)) <;>
      cases h6 : jsParseFloat (getCell ((splitOnChar ',' line).map jsTrim) (jsIndexOf hdr "o1".toList)) <;>
        simp_all [requiredCols]
  · intro text hm h2 h128
    have hval : (csvLines text).tail.filterMap (parseRow (headerOf (csvLines text)))
        = validSamples text := rfl
    simp only [parseCSV, hval]
    rw [if_neg (by omega), if_neg (by simp [hm]), if_neg (by omega), if_neg (by omega)]

/-- A 131-line CSV: valid header and 130 numeric data rows. -/
def wCSV : String :=
  "time,Fp1,F3,C3,P3,O1\n0,1,2,3,4,5\n1,1,2,3,4,5\n2,1,2,3,4,5\n3,1,2,3,4,5\n4,1,2,3,4,5\n5,1,2,3,4,5\n6,1,2,3,4,5\n7,1,2,3,4,5\n8,1,2,3,4,5\n9,1,2,3,4,5\n10,1,2,3,4,5\n11,1,2,3,4,5\n12,1,2,3,4,5\n13,1,2,3,4,5\n14,1,2,3,4,5\n15,1,2,3,4,5\n16,1,2,3,4,5\n17,1,2,3,4,5\n18,1,2,3,4,5\n19,1,2,3,4,5\n20,1,2,3,4,5\n21,1,2,3,4,5\n22,1,2,3,4,5\n23,1,2,3,4,5\n24,1,2,3,4,5\n25,1,2,3,4,5\n26,1,2,3,4,5\n27,1,2,3,4,5\n28,1,2,3,4,5\n29,1,2,3,4,5\n30,1,2,3,4,5\n31,1,2,3,4,5\n32,1,2,3,4,5\n33,1,2,3,4,5\n34,1,2,3,4,5\n35,1,2,3,4,5\n36,1,2,3,4,5\n37,1,2,3,4,5\n38,1,2,3,4,5\n39,1,2,3,4,5\n40,1,2,3,4,5\n41,1,2,3,4,5\n42,1,2,3,4,5\n43,1,2,3,4,5\n44,1,2,3,4,5\n45,1,2,3,4,5\n46,1,2,3,4,5\n47,1,2,3,4,5\n48,1,2,3,4,5\n49,1,2,3,4,5\n50,1,2,3,4,5\n51,1,2,3,4,5\n52,1,2,3,4,5\n53,1,2,3,4,5\n54,1,2,3,4,5\n55,1,2,3,4,5\n56,1,2,3,4,5\n57,1,2,3,4,5\n58,1,2,3,4,5\n59,1,2,3,4,5\n60,1,2,3,4,5\n61,1,2,3,4,5\n62,1,2,3,4,5\n63,1,2,3,4,5\n64,1,2,3,4,5\n65,1,2,3,4,5\n66,1,2,3,4,5\n67,1,2,3,4,5\n68,1,2,3,4,5\n69,1,2,3,4,5\n70,1,2,3,4,5\n71,1,2,3,4,5\n72,1,2,3,4,5\n73,1,2,3,4,5\n74,1,2,3,4,5\n75,1,2,3,4,5\n76,1,2,3,4,5\n77,1,2,3,4,5\n78,1,2,3,4,5\n79,1,2,3,4,5\n80,1,2,3,4,5\n81,1,2,3,4,5\n82,1,2,3,4,5\n83,1,2,3,4,5\n84,1,2,3,4,5\n85,1,2,3,4,5\n86,1,2,3,4,5\n87,1,2,3,4,5\n88,1,2,3,4,5\n89,1,2,3,4,5\n90,1,2,3,4,5\n91,1,2,3,4,5\n92,1,2,3,4,5\n93,1,2,3,4,5\n94,1,2,3,4,5\n95,1,2,3,4,5\n96,1,2,3,4,5\n97,1,2,3,4,5\n98,1,2,3,4,5\n99,1,2,3,4,5\n100,1,2,3,4,5\n101,1,2,3,4,5\n102,1,2,3,4,5\n103,1,2,3,4,5\n104,1,2,3,4,5\n105,1,2,3,4,5\n106,1,2,3,4,5\n107,1,2,3,4,5\n108,1,2,3,4,5\n109,1,2,3,4,5\n110,1,2,3,4,5\n111,1,2,3,4,5\n112,1,2,3,4,5\n113,1,2,3,4,5\n114,1,2,3,4,5\n115,1,2,3,4,5\n116,1,2,3,4,5\n117,1,2,3,4,5\n118,1,2,3,4,5\n119,1,2,3,4,5\n120,1,2,3,4,5\n121,1,2,3,4,5\n122,1,2,3,4,5\n123,1,2,3,4,5\n124,1,2,3,4,5\n125,1,2,3,4,5\n126,1,2,3,4,5\n127,1,2,3,4,5\n128,1,2,3,4,5\n129,1,2,3,4,5"

set_option maxRecDepth 100000 in
theorem parseRow_row_filtering_witness :
    (missingCols (headerOf (csvLines wCSV)) = [] ∧ 2 ≤ (csvLines wCSV).length ∧
      128 ≤ (validSamples wCSV).length) ∧
    parseCSV wCSV = Except.ok (validSamples wCSV) :=
  ⟨⟨by decide, by decide, by decide⟩,
    parseRow_row_filtering.2 wCSV (by decide) (by decide) (by decide)⟩
